import Mathlib

/-!
Shallow embedding of `services/alertmanager/service.go` (package `alertmanager`).

The Go service keeps its configuration in an atomic cell; here the stored
`Config` is threaded explicitly: state-reading functions take the stored
`Config` as an argument, and `Service.Update` returns the new stored value.
Network I/O is made explicit: `Service.Alert` takes the outcome of the one
`http.Post` it may perform as an argument (`HttpOutcome`) and returns the list
of HTTP requests it actually issued, alongside the returned `error`
(`Option SvcError`, `none` = Go `nil`).  A Go runtime panic (index out of
range on a slice) is modelled by `GoResult.panic`.
-/

set_option autoImplicit false

namespace Alertmanager

/-- Modelled from the spec: the severity levels of the `alert` package
(`alert.Level`), which is outside the embedded source file.  The spec requires
an enumerated set with `OK` and escalating non-OK levels such as
Info/Warning/Critical. -/
inductive Level where
  | OK
  | Info
  | Warning
  | Critical
deriving DecidableEq, Repr

/-- Modelled from the spec: the adapter `Config` (its Go definition lives in
`config.go`, not in the embedded file): enablement flag, destination URL and
default room.  Only the fields `Enabled`, `URL`, `Room` are read by the
embedded code. -/
structure Config where
  Enabled : Bool
  URL : String
  Room : String
deriving DecidableEq, Repr

/-- A Go `interface{}` value handed to `Service.Update`: either an actual
`Config` or a value of some other dynamic type (identified by its type name,
which Go would print with `%T`). -/
inductive ConfigArg where
  | config (c : Config)
  | other (typeName : String)
deriving DecidableEq, Repr

/-- The errors `Service.Update` can return. -/
inductive UpdateError where
  /-- "expected only one new config object, got %d" -/
  | cardinality (got : Nat)
  /-- "expected config object to be of type %T, got %T" -/
  | wrongType (got : String)
deriving DecidableEq, Repr

/-- `func (s *Service) Update(newConfig []interface{}) error`.
Returns the Go `error` result together with the configuration stored in the
atomic cell after the call (the cell's previous content is `stored`). -/
def Service.Update (stored : Config) (newConfig : List ConfigArg) :
    Except UpdateError Unit × Config :=
  match newConfig with
  | [arg] =>
    match arg with
    | .config c => (.ok (), c)
    | .other t => (.error (.wrongType t), stored)
  | _ => (.error (.cardinality newConfig.length), stored)

/-- `func (s *Service) config() Config`: loads the config struct stored in the
`configValue` field (here, the explicitly threaded state). -/
def Service.config (stored : Config) : Config :=
  stored

/-- Result of running Go code that may panic at runtime
(slice index out of range). -/
inductive GoResult (α : Type) where
  | ok (a : α)
  | panic
deriving Repr

/-- Go map insert `m[k] = v`: overwrites the value when the key is present,
otherwise adds the entry.  The map is represented as an association list with
unique keys. -/
def mapInsert (m : List (String × String)) (k v : String) :
    List (String × String) :=
  if m.any (fun p => p.1 = k) then
    m.map (fun p => if p.1 = k then (k, v) else p)
  else
    m ++ [(k, v)]

/-- The loop `for i := 0; i < bound; i++ { m[names[i]] = values[i] }` starting
from the empty map.  An index past the end of either slice is a Go runtime
panic. -/
def buildMap (names values : List String) (bound : Nat) :
    GoResult (List (String × String)) :=
  (List.range bound).foldl
    (fun acc i =>
      match acc with
      | .panic => .panic
      | .ok m =>
        match names.get? i, values.get? i with
        | some n, some v => .ok (mapInsert m n v)
        | _, _ => .panic)
    (.ok [])

/-- `type AlertManagerAlert struct { Status string; Labels map[string]string;
Annotations map[string]string }` (the field names carry no json tags, so
`json.Marshal` uses them capitalized as written). -/
structure AlertManagerAlert where
  Status : String
  Labels : List (String × String)
  Annotations : List (String × String)

/-- `type PostAlertManager []AlertManagerAlert`. -/
abbrev PostAlertManager := List AlertManagerAlert

/-- JSON values, as far as this payload needs them. -/
inductive Json where
  | str (s : String)
  | obj (fields : List (String × Json))
  | arr (elems : List Json)

/-- Insert an entry into a key-sorted association list, keeping it sorted. -/
def insertByKey (p : String × String) :
    List (String × String) → List (String × String)
  | [] => [p]
  | q :: qs => if q.1 < p.1 then q :: insertByKey p qs else p :: q :: qs

/-- Sort a map's entries by key, as Go's `json.Marshal` does for
`map[string]string`. -/
def sortByKey (m : List (String × String)) : List (String × String) :=
  m.foldr insertByKey []

/-- `json.Marshal` of a `map[string]string`: a JSON object with one string
member per entry, keys sorted. -/
def marshalStringMap (m : List (String × String)) : Json :=
  .obj ((sortByKey m).map (fun p => (p.1, .str p.2)))

/-- `json.Marshal` of one `AlertManagerAlert` value. -/
def marshalAlert (a : AlertManagerAlert) : Json :=
  .obj [("Status", .str a.Status),
        ("Labels", marshalStringMap a.Labels),
        ("Annotations", marshalStringMap a.Annotations)]

/-- `json.Marshal` of a `PostAlertManager` batch.  Marshalling these types
never fails, so the `if err != nil` branch after `json.Marshal` is
unreachable and the encoder is total here. -/
def marshalPost (p : PostAlertManager) : Json :=
  .arr (p.map marshalAlert)

/-- The outcome of the single `http.Post` call: a transport-level error
(connection refused, DNS failure, ...) or a response with a status code. -/
inductive HttpOutcome where
  | transportError (msg : String)
  | response (statusCode : Nat)
deriving DecidableEq, Repr

/-- One HTTP POST request as issued by `Service.Alert`. -/
structure PostRequest where
  url : String
  contentType : String
  body : Json

/-- The errors `Service.Alert` (and hence `Service.Test`) can return. -/
inductive SvcError where
  /-- "service is not enabled" -/
  | notEnabled
  /-- the error returned by `http.Post` itself -/
  | transport (msg : String)
  /-- "unexpected response code %d from Alertmanager service" -/
  | unexpectedStatus (code : Nat)
  /-- "unexpected options type %T" (returned by `Service.Test`) -/
  | optionsType (got : String)
deriving DecidableEq, Repr

/-- Lines 94-97 of the source: `alertStatus := "firing"`, overwritten with
`"resolved"` when `alertLevel == alert.OK`. -/
def alertStatusOf (alertLevel : Level) : String :=
  if alertLevel = Level.OK then "resolved" else "firing"

/-- `func (s *Service) Alert(room string, tagName, tagValue, annotationName,
annotationValue []string, alertLevel interface{}) error`.

Returns the list of HTTP requests issued and the Go `error` result
(`none` = success).  Both map-building loops use the bound
`len(tagName) - 1`, exactly as the source does (the annotation loop also
iterates over `tagName`'s length while indexing the annotation slices). -/
def Service.Alert (c : Config) (room : String)
    (tagName tagValue annotationName annotationValue : List String)
    (alertLevel : Level) (http : HttpOutcome) :
    GoResult (List PostRequest × Option SvcError) :=
  if !c.Enabled then
    .ok ([], some .notEnabled)
  else
    let alertStatus := alertStatusOf alertLevel
    match buildMap tagName tagValue (tagName.length - 1) with
    | .panic => .panic
    | .ok alertLabels =>
      match buildMap annotationName annotationValue (tagName.length - 1) with
      | .panic => .panic
      | .ok alertAnnotations =>
        let newAlert : AlertManagerAlert :=
          ⟨alertStatus, alertLabels, alertAnnotations⟩
        let postMessage : PostAlertManager := [newAlert]
        let data := marshalPost postMessage
        let req : PostRequest := ⟨c.URL, "application/json", data⟩
        match http with
        | .transportError m => .ok ([req], some (.transport m))
        | .response code =>
          if code ≠ 200 then .ok ([req], some (.unexpectedStatus code))
          else .ok ([req], none)

/-- `type HandlerConfig struct` (room plus the four label/annotation name and
value lists). -/
structure HandlerConfig where
  Room : String
  AlertManagerTagName : List String
  AlertManagerTagValue : List String
  AlertManagerAnnotationName : List String
  AlertManagerAnnotationValue : List String

/-- One call to the diagnostics collaborator's `Error(msg, err)`. -/
structure DiagCall where
  msg : String
  err : SvcError
deriving DecidableEq, Repr

/-- `func (h *handler) Handle(event alert.Event)`: calls `Service.Alert` with
the bound `HandlerConfig` and the event's level; a non-nil error is passed to
`h.diag.Error` and not returned (the function has no return value).  The
result carries the requests issued and the diagnostics calls made. -/
def handler.Handle (c : Config) (hc : HandlerConfig) (level : Level)
    (http : HttpOutcome) : GoResult (List PostRequest × List DiagCall) :=
  match Service.Alert c hc.Room hc.AlertManagerTagName hc.AlertManagerTagValue
      hc.AlertManagerAnnotationName hc.AlertManagerAnnotationValue level http with
  | .panic => .panic
  | .ok (posts, some e) => .ok (posts, [⟨"E! failed to handle event", e⟩])
  | .ok (posts, none) => .ok (posts, [])

/-- `type testOptions struct` (room, message and the four lists). -/
structure testOptions where
  Room : String
  Message : String
  AlertManagerTagName : List String
  AlertManagerTagValue : List String
  AlertManagerAnnotationName : List String
  AlertManagerAnnotationValue : List String

/-- A Go `interface{}` value handed to `Service.Test`: either an actual
`*testOptions` or a value of some other dynamic type. -/
inductive TestArg where
  | opts (o : testOptions)
  | other (typeName : String)

/-- `func (s *Service) Test(o interface{}) error`: rejects a value that is not
`*testOptions`, otherwise returns `s.Alert(...)` called with the options'
fields and the fixed level `alert.Critical`. -/
def Service.Test (c : Config) (arg : TestArg) (http : HttpOutcome) :
    GoResult (List PostRequest × Option SvcError) :=
  match arg with
  | .other t => .ok ([], some (.optionsType t))
  | .opts o =>
    Service.Alert c o.Room o.AlertManagerTagName o.AlertManagerTagValue
      o.AlertManagerAnnotationName o.AlertManagerAnnotationValue
      Level.Critical http

end Alertmanager

/-! ## Claim theorems -/

/-- C1: the claim says that for label sequences of equal length N and
annotation sequences of equal length M the built record has exactly N label
entries and M annotation entries with `names[i] -> values[i]` for every valid
index.  The code's loops use the bound `len(tagName) - 1`, so with N = 1 and
M = 1 the built record has zero label entries and zero annotation entries:
evaluating `Service.Alert` at `tagName = ["a"], tagValue = ["x"],
annotationName = ["b"], annotationValue = ["y"]` posts a record whose label
and annotation maps are both empty, dropping the `"a" -> "x"` and
`"b" -> "y"` pairs the claim requires. -/
theorem C1_last_pair_dropped :
    Alertmanager.Service.Alert ⟨true, "http://am.example", "ops"⟩ "ops"
      ["a"] ["x"] ["b"] ["y"] Alertmanager.Level.Critical
      (Alertmanager.HttpOutcome.response 200)
    = .ok ([⟨"http://am.example", "application/json",
             Alertmanager.marshalPost [⟨"firing", [], []⟩]⟩], none) := rfl

/-- C2: the claim says iteration never reads past the end of any of the four
sequences.  The annotation loop's bound is `len(tagName) - 1` while it indexes
`annotationName`/`annotationValue`, so with two tags (name/value sequences of
equal length 2) and zero annotations (equal length 0) the loop reads
`annotationName[0]`, out of range: the call panics. -/
theorem C2_annotation_index_out_of_range :
    Alertmanager.Service.Alert ⟨true, "http://am.example", "ops"⟩ "ops"
      ["a", "b"] ["x", "y"] [] [] Alertmanager.Level.Critical
      (Alertmanager.HttpOutcome.response 200)
    = .panic := rfl

/-- C3: the status written into the built record is `"resolved"` exactly when
the severity level is `OK`, and `"firing"` exactly when it is any other
level - an exhaustive two-way partition over the enumerated severity set. -/
theorem C3_status_partition (l : Alertmanager.Level) :
    (Alertmanager.alertStatusOf l = "resolved" ↔ l = Alertmanager.Level.OK) ∧
    (Alertmanager.alertStatusOf l = "firing" ↔ l ≠ Alertmanager.Level.OK) := by
  cases l <;> exact ⟨by decide, by decide⟩

/-- C4: `Service.Update` with zero or two-or-more elements returns the
cardinality error; with a single element that is not a `Config` it returns the
type error (and in both cases the stored configuration is unchanged); with a
single valid `Config` element it succeeds and `Service.config` immediately
afterwards returns that element. -/
theorem C4_update_contract (stored : Alertmanager.Config)
    (args : List Alertmanager.ConfigArg) :
    (args.length ≠ 1 →
      Alertmanager.Service.Update stored args
        = (.error (.cardinality args.length), stored)) ∧
    (∀ t, args = [Alertmanager.ConfigArg.other t] →
      Alertmanager.Service.Update stored args
        = (.error (.wrongType t), stored)) ∧
    (∀ c, args = [Alertmanager.ConfigArg.config c] →
      Alertmanager.Service.Update stored args = (.ok (), c) ∧
      Alertmanager.Service.config (Alertmanager.Service.Update stored args).2
        = c) := by
  refine ⟨?_, ?_, ?_⟩
  · intro h
    match args with
    | [] => rfl
    | [a] => exact absurd rfl h
    | a :: b :: rest => rfl
  · intro t ht
    subst ht
    rfl
  · intro c hc
    subst hc
    exact ⟨rfl, rfl⟩

/-- Witness for C4 at concrete inputs: the empty sequence, a one-element
sequence of the wrong type, and a one-element sequence holding a `Config`. -/
theorem C4_update_contract_witness :
    Alertmanager.Service.Update ⟨false, "u0", "r0"⟩ []
      = (.error (.cardinality 0), ⟨false, "u0", "r0"⟩) ∧
    Alertmanager.Service.Update ⟨false, "u0", "r0"⟩
        [Alertmanager.ConfigArg.other "int"]
      = (.error (.wrongType "int"), ⟨false, "u0", "r0"⟩) ∧
    Alertmanager.Service.Update ⟨false, "u0", "r0"⟩
        [Alertmanager.ConfigArg.config ⟨true, "u1", "r1"⟩]
      = (.ok (), ⟨true, "u1", "r1"⟩) :=
  ⟨(C4_update_contract ⟨false, "u0", "r0"⟩ []).1 (by decide),
   (C4_update_contract ⟨false, "u0", "r0"⟩ _).2.1 "int" rfl,
   ((C4_update_contract ⟨false, "u0", "r0"⟩ _).2.2 ⟨true, "u1", "r1"⟩ rfl).1⟩

/-- C5: with a configuration whose `Enabled` flag is false, `Service.Alert`
returns the "service is not enabled" error immediately and issues no HTTP
request, for every record input and every would-be HTTP outcome. -/
theorem C5_disabled_no_post (c : Alertmanager.Config) (h : c.Enabled = false)
    (room : String) (tn tv an av : List String) (level : Alertmanager.Level)
    (http : Alertmanager.HttpOutcome) :
    Alertmanager.Service.Alert c room tn tv an av level http
      = .ok ([], some Alertmanager.SvcError.notEnabled) := by
  unfold Alertmanager.Service.Alert
  rw [h]
  rfl

/-- Witness for C5 at a concrete disabled configuration. -/
theorem C5_disabled_no_post_witness :
    Alertmanager.Service.Alert ⟨false, "http://am.example", "ops"⟩ "ops"
      ["a"] ["x"] ["b"] ["y"] Alertmanager.Level.Critical
      (Alertmanager.HttpOutcome.response 200)
      = .ok ([], some Alertmanager.SvcError.notEnabled) :=
  C5_disabled_no_post ⟨false, "http://am.example", "ops"⟩ rfl "ops"
    ["a"] ["x"] ["b"] ["y"] Alertmanager.Level.Critical
    (Alertmanager.HttpOutcome.response 200)

/-- C10: whenever `Service.Update` returns an error, the stored configuration
is unchanged: `Service.config` observes the same value after the failed call
as before it. -/
theorem C10_failed_update_preserves_config (stored : Alertmanager.Config)
    (args : List Alertmanager.ConfigArg) (e : Alertmanager.UpdateError)
    (h : (Alertmanager.Service.Update stored args).1 = .error e) :
    Alertmanager.Service.config (Alertmanager.Service.Update stored args).2
      = Alertmanager.Service.config stored := by
  match args with
  | [] => rfl
  | [Alertmanager.ConfigArg.config c] =>
    simp [Alertmanager.Service.Update] at h
  | [Alertmanager.ConfigArg.other t] => rfl
  | a :: b :: rest => rfl

/-- Witness for C10 at a concrete failed update (wrong element type). -/
theorem C10_failed_update_preserves_config_witness :
    Alertmanager.Service.config
      (Alertmanager.Service.Update ⟨true, "u", "r"⟩
        [Alertmanager.ConfigArg.other "int"]).2
      = Alertmanager.Service.config ⟨true, "u", "r"⟩ :=
  C10_failed_update_preserves_config ⟨true, "u", "r"⟩
    [Alertmanager.ConfigArg.other "int"] (.wrongType "int") rfl

open Alertmanager

/-- Helper (shared): any successful run of `Service.Alert` either issued no
HTTP request (the disabled path) or issued exactly one: to the configuration's
URL, with content type `application/json`, whose body is the marshalled
one-element batch holding the record built from the level and the two
map-building loops. -/
theorem alert_ok_shape (c : Config) (room : String)
    (tn tv an av : List String) (level : Level) (http : HttpOutcome)
    (posts : List PostRequest) (err : Option SvcError)
    (h : Service.Alert c room tn tv an av level http = .ok (posts, err)) :
    posts = [] ∨ ∃ L A,
      buildMap tn tv (tn.length - 1) = .ok L ∧
      buildMap an av (tn.length - 1) = .ok A ∧
      posts = [⟨c.URL, "application/json",
                marshalPost [⟨alertStatusOf level, L, A⟩]⟩] := by
  unfold Service.Alert at h
  split at h
  · simp only [GoResult.ok.injEq, Prod.mk.injEq] at h
    exact Or.inl h.1.symm
  · split at h
    · exact GoResult.noConfusion h
    · rename_i L hb
      split at h
      · exact GoResult.noConfusion h
      · rename_i A ha
        split at h
        · rename_i m
          simp only [GoResult.ok.injEq, Prod.mk.injEq] at h
          exact Or.inr ⟨L, A, hb, ha, h.1.symm⟩
        · rename_i code
          split at h
          · simp only [GoResult.ok.injEq, Prod.mk.injEq] at h
            exact Or.inr ⟨L, A, hb, ha, h.1.symm⟩
          · simp only [GoResult.ok.injEq, Prod.mk.injEq] at h
            exact Or.inr ⟨L, A, hb, ha, h.1.symm⟩

/-- C6: with the service enabled, whenever the HTTP POST gets a response, the
dispatch returns no error exactly when the status code is 200, and for any
other status code returns the unexpected-status error carrying that code. -/
theorem C6_response_status (c : Config) (room : String)
    (tn tv an av : List String) (level : Level) (code : Nat)
    (posts : List PostRequest) (err : Option SvcError)
    (hE : c.Enabled = true)
    (h : Service.Alert c room tn tv an av level (.response code)
           = .ok (posts, err)) :
    err = if code = 200 then none
          else some (SvcError.unexpectedStatus code) := by
  unfold Service.Alert at h
  split at h
  · rename_i hcond
    rw [hE] at hcond
    simp at hcond
  · split at h
    · exact GoResult.noConfusion h
    · split at h
      · exact GoResult.noConfusion h
      · dsimp only at h
        split at h
        · rename_i hc
          rw [if_neg hc]
          simp only [GoResult.ok.injEq, Prod.mk.injEq] at h
          exact h.2.symm
        · rename_i hc
          rw [not_not] at hc
          rw [if_pos hc]
          simp only [GoResult.ok.injEq, Prod.mk.injEq] at h
          exact h.2.symm

/-- Witness for C6: a concrete enabled configuration with empty sequences,
against a destination answering 500 (error carrying 500) and one answering
200 (no error). -/
theorem C6_response_status_witness :
    ((some (SvcError.unexpectedStatus 500) : Option SvcError)
      = if (500 : Nat) = 200 then none
        else some (SvcError.unexpectedStatus 500)) ∧
    ((none : Option SvcError)
      = if (200 : Nat) = 200 then none
        else some (SvcError.unexpectedStatus 200)) :=
  ⟨C6_response_status ⟨true, "u", "r"⟩ "r" [] [] [] [] Level.OK 500
      [⟨"u", "application/json", marshalPost [⟨"resolved", [], []⟩]⟩]
      (some (SvcError.unexpectedStatus 500)) rfl rfl,
   C6_response_status ⟨true, "u", "r"⟩ "r" [] [] [] [] Level.OK 200
      [⟨"u", "application/json", marshalPost [⟨"resolved", [], []⟩]⟩]
      none rfl rfl⟩

/-- C7: `handler.Handle` has no error channel back to its caller; whatever
`Service.Alert` returns, the requests pass through unchanged and the
diagnostics collaborator's error method is called exactly once when the
dispatch failed and not at all when it succeeded. -/
theorem C7_handle_swallows (c : Config) (hc : HandlerConfig) (level : Level)
    (http : HttpOutcome) (posts : List PostRequest) (err : Option SvcError)
    (h : Service.Alert c hc.Room hc.AlertManagerTagName hc.AlertManagerTagValue
           hc.AlertManagerAnnotationName hc.AlertManagerAnnotationValue level
           http = .ok (posts, err)) :
    handler.Handle c hc level http
      = .ok (posts,
          (err.map (fun e => DiagCall.mk "E! failed to handle event" e)).toList) := by
  unfold handler.Handle
  rw [h]
  cases err <;> rfl

/-- Witness for C7: a concrete failing destination (HTTP 500, exactly one
diagnostics call) and a succeeding one (HTTP 200, no diagnostics call). -/
theorem C7_handle_swallows_witness :
    handler.Handle ⟨true, "u", "r"⟩ ⟨"r", [], [], [], []⟩ Level.Critical
        (.response 500)
      = .ok ([⟨"u", "application/json", marshalPost [⟨"firing", [], []⟩]⟩],
          ((some (SvcError.unexpectedStatus 500)).map
            (fun e => DiagCall.mk "E! failed to handle event" e)).toList) ∧
    handler.Handle ⟨true, "u", "r"⟩ ⟨"r", [], [], [], []⟩ Level.Critical
        (.response 200)
      = .ok ([⟨"u", "application/json", marshalPost [⟨"firing", [], []⟩]⟩],
          ((none : Option SvcError).map
            (fun e => DiagCall.mk "E! failed to handle event" e)).toList) :=
  ⟨C7_handle_swallows ⟨true, "u", "r"⟩ ⟨"r", [], [], [], []⟩ Level.Critical
      (.response 500) _ _ rfl,
   C7_handle_swallows ⟨true, "u", "r"⟩ ⟨"r", [], [], [], []⟩ Level.Critical
      (.response 200) _ _ rfl⟩

/-- C8: `Service.Test` returns the options-type error whenever its argument
is not a `testOptions` value; on a `testOptions` value it returns the result
of the same build/dispatch path (`Service.Alert`) at the fixed level
`Critical`, and every record it posts therefore has status `"firing"`. -/
theorem C8_test_contract (c : Config) (arg : TestArg) (http : HttpOutcome) :
    (∀ t, arg = TestArg.other t →
      Service.Test c arg http = .ok ([], some (SvcError.optionsType t))) ∧
    (∀ o, arg = TestArg.opts o →
      Service.Test c arg http
        = Service.Alert c o.Room o.AlertManagerTagName o.AlertManagerTagValue
            o.AlertManagerAnnotationName o.AlertManagerAnnotationValue
            Level.Critical http) ∧
    (∀ posts err, Service.Test c arg http = .ok (posts, err) →
      ∀ r ∈ posts, ∃ L A, r.body = marshalPost [⟨"firing", L, A⟩]) := by
  refine ⟨?_, ?_, ?_⟩
  · intro t ht
    subst ht
    rfl
  · intro o ho
    subst ho
    rfl
  · intro posts err h r hr
    cases arg with
    | other t =>
      unfold Service.Test at h
      simp only [GoResult.ok.injEq, Prod.mk.injEq] at h
      rw [← h.1] at hr
      exact absurd hr (List.not_mem_nil r)
    | opts o =>
      unfold Service.Test at h
      rcases alert_ok_shape _ _ _ _ _ _ _ _ _ _ h with
        hnil | ⟨L, A, hb, ha, hp⟩
      · subst hnil
        exact absurd hr (List.not_mem_nil r)
      · subst hp
        rcases List.mem_singleton.1 hr with rfl
        exact ⟨L, A, rfl⟩

/-- Witness for C8: a non-options argument is rejected; a concrete options
value routes through `Service.Alert` at level `Critical`, and the probe's
posted record has status `"firing"`. -/
theorem C8_test_contract_witness :
    (Service.Test ⟨true, "u", "r"⟩ (TestArg.other "int") (.response 200)
      = .ok ([], some (SvcError.optionsType "int"))) ∧
    (Service.Test ⟨true, "u", "r"⟩
        (TestArg.opts ⟨"r", "m", [], [], [], []⟩) (.response 200)
      = Service.Alert ⟨true, "u", "r"⟩ "r" [] [] [] [] Level.Critical
          (.response 200)) ∧
    (∀ r ∈ [PostRequest.mk "u" "application/json"
              (marshalPost [⟨"firing", [], []⟩])],
      ∃ L A, r.body = marshalPost [⟨"firing", L, A⟩]) :=
  ⟨(C8_test_contract ⟨true, "u", "r"⟩ (TestArg.other "int")
      (.response 200)).1 "int" rfl,
   (C8_test_contract ⟨true, "u", "r"⟩
      (TestArg.opts ⟨"r", "m", [], [], [], []⟩) (.response 200)).2.1
      ⟨"r", "m", [], [], [], []⟩ rfl,
   (C8_test_contract ⟨true, "u", "r"⟩
      (TestArg.opts ⟨"r", "m", [], [], [], []⟩) (.response 200)).2.2
      [PostRequest.mk "u" "application/json"
        (marshalPost [⟨"firing", [], []⟩])] none rfl⟩

/-- C9: every request `Service.Alert` dispatches carries a JSON body that is
an array of exactly one object whose field names are exactly `"Status"`,
`"Labels"` and `"Annotations"` (capitalized), where the latter two are objects
all of whose member values are strings - free-form string-to-string maps, not
the fixed-field lower-case schema. -/
theorem C9_wire_format (c : Config) (room : String)
    (tn tv an av : List String) (level : Level) (http : HttpOutcome)
    (posts : List PostRequest) (err : Option SvcError)
    (h : Service.Alert c room tn tv an av level http = .ok (posts, err)) :
    ∀ r ∈ posts, ∃ status labels anns,
      r.body = Json.arr [Json.obj [("Status", Json.str status),
                                   ("Labels", Json.obj labels),
                                   ("Annotations", Json.obj anns)]] ∧
      (∀ p ∈ labels, ∃ s, p.2 = Json.str s) ∧
      (∀ p ∈ anns, ∃ s, p.2 = Json.str s) := by
  intro r hr
  rcases alert_ok_shape c room tn tv an av level http posts err h with
    hnil | ⟨L, A, hb, ha, hp⟩
  · subst hnil
    exact absurd hr (List.not_mem_nil r)
  · subst hp
    rcases List.mem_singleton.1 hr with rfl
    refine ⟨alertStatusOf level,
      (sortByKey L).map (fun p => (p.1, Json.str p.2)),
      (sortByKey A).map (fun p => (p.1, Json.str p.2)), ?_, ?_, ?_⟩
    · rfl
    · intro p hp2
      rcases List.mem_map.1 hp2 with ⟨q, hq, rfl⟩
      exact ⟨q.2, rfl⟩
    · intro p hp2
      rcases List.mem_map.1 hp2 with ⟨q, hq, rfl⟩
      exact ⟨q.2, rfl⟩

/-- Witness for C9: a concrete dispatch with one label pair and one
annotation pair surviving the loops. -/
theorem C9_wire_format_witness :
    ∃ status labels anns,
      (PostRequest.mk "http://am.example" "application/json"
          (marshalPost [⟨"firing", [("a", "x")], [("c", "p")]⟩])).body
        = Json.arr [Json.obj [("Status", Json.str status),
                              ("Labels", Json.obj labels),
                              ("Annotations", Json.obj anns)]] ∧
      (∀ p ∈ labels, ∃ s, p.2 = Json.str s) ∧
      (∀ p ∈ anns, ∃ s, p.2 = Json.str s) :=
  C9_wire_format ⟨true, "http://am.example", "ops"⟩ "ops"
    ["a", "b"] ["x", "y"] ["c", "d"] ["p", "q"] Level.Critical
    (.response 200)
    [PostRequest.mk "http://am.example" "application/json"
      (marshalPost [⟨"firing", [("a", "x")], [("c", "p")]⟩])]
    none rfl
    (PostRequest.mk "http://am.example" "application/json"
      (marshalPost [⟨"firing", [("a", "x")], [("c", "p")]⟩]))
    (List.mem_singleton.2 rfl)

/-- Witness for C3 at the concrete level `OK`. -/
theorem C3_status_partition_witness :
    (alertStatusOf Level.OK = "resolved" ↔ Level.OK = Level.OK) ∧
    (alertStatusOf Level.OK = "firing" ↔ Level.OK ≠ Level.OK) :=
  C3_status_partition Level.OK
